import Mathlib

/-!
Verification of the planets simulation (src/main.rs).

The program state is embedded shallowly: macroquad's `Vec2` of `f32` becomes a
pair of rationals (idealized exact arithmetic), `Vec<Planet>` becomes
`List Planet`, and in-place mutation becomes explicit state threading.  The
only non-rational operation the physics uses is the square root inside
`Vec2::normalize`; the embedding takes that square-root function `sq` as an
explicit parameter, and theorems that depend on its value hypothesize that it
is exact at the arguments where the code applies it (as IEEE-754 sqrt is at
representable perfect squares).
-/

namespace Planets

/-- Planar vector with rational coordinates, modelling macroquad's `Vec2`. -/
@[ext] structure Vec2 where
  x : ℚ
  y : ℚ
deriving DecidableEq, Repr

instance : Add Vec2 := ⟨fun a b => ⟨a.x + b.x, a.y + b.y⟩⟩

instance : Sub Vec2 := ⟨fun a b => ⟨a.x - b.x, a.y - b.y⟩⟩

instance : Neg Vec2 := ⟨fun a => ⟨-a.x, -a.y⟩⟩

instance : Zero Vec2 := ⟨⟨0, 0⟩⟩

instance : SMul ℚ Vec2 := ⟨fun c v => ⟨c * v.x, c * v.y⟩⟩

/-- Dot product, as in glam's `Vec2::dot`. -/
def Vec2.dot (a b : Vec2) : ℚ := a.x * b.x + a.y * b.y

/-- Squared Euclidean length, as in glam's `Vec2::length_squared`. -/
def Vec2.length_squared (v : Vec2) : ℚ := v.x * v.x + v.y * v.y

/-- Normalization `v / |v|` as in glam's `Vec2::normalize`; `sq` stands for the
square root applied to `length_squared`. -/
def Vec2.normalize (sq : ℚ → ℚ) (v : Vec2) : Vec2 :=
  (1 / sq v.length_squared) • v

/-- RGBA color with rational channels, modelling macroquad's `Color`. -/
structure Color where
  r : ℚ
  g : ℚ
  b : ℚ
  a : ℚ
deriving DecidableEq, Repr

/-- The `Planet` struct of main.rs. -/
structure Planet where
  position : Vec2
  radius : ℚ
  velocity : Vec2
  mass : ℚ
  history : List Vec2
  color : Color
deriving DecidableEq, Repr

/-- Gravitational constant `G` of main.rs (`0.1`). -/
def G : ℚ := 1 / 10

/-- Restitution constant of main.rs (`0.3`). -/
def RESTITUTION_COEFFICIENT : ℚ := 3 / 10

/-- `Planet::new`: builds a planet with the given fields and empty history. -/
def Planet.new (position : Vec2) (radius : ℚ) (velocity : Vec2) (mass : ℚ)
    (color : Color) : Planet :=
  { position := position, radius := radius, velocity := velocity, mass := mass,
    history := [], color := color }

/-- The gravity accumulation term of `Planet::update`:
`direction.normalize() * (G * other.mass * self.mass / distance_squared)`.
The gravitational constant is a parameter `Gc` (the program uses `G`). -/
def gravContrib (Gc : ℚ) (sq : ℚ → ℚ) (self other : Planet) : Vec2 :=
  let direction := other.position - self.position
  let distance_squared := direction.length_squared
  let force_magnitude := Gc * ((other.mass * self.mass) / distance_squared)
  force_magnitude • direction.normalize sq

/-- One iteration of the inner loop of `Planet::update` for a single other
planet: the position-equality skip, gravity accumulation into `acc`, and the
collision impulse applied to `self`'s and `other`'s velocities.  Returns the
new accumulator and the (possibly velocity-updated) `self` and `other`. -/
def interact (Gc e : ℚ) (sq : ℚ → ℚ) (self : Planet) (acc : Vec2)
    (other : Planet) : Vec2 × Planet × Planet :=
  if self.position = other.position then (acc, self, other)
  else
    let direction := other.position - self.position
    let distance_squared := direction.length_squared
    let acc2 := acc + gravContrib Gc sq self other
    if distance_squared ≤ (self.radius + other.radius) ^ 2 then
      let collision_normal := direction.normalize sq
      let relative_velocity := self.velocity - other.velocity
      let impulse := (2 * self.mass * other.mass) / (self.mass + other.mass)
          * relative_velocity.dot collision_normal * e
      (acc2,
       { self with velocity := self.velocity - impulse • collision_normal },
       { other with velocity := other.velocity + impulse • collision_normal })
    else
      (acc2, self, other)

/-- The inner loop of `Planet::update`: `for i in (0..other_planets.len()).rev()`.
Indices are visited from the last to the first, so the list tail is processed
before the head; `self`'s velocity and the accumulator thread through. -/
def updateLoop (Gc e : ℚ) (sq : ℚ → ℚ) (self : Planet) (acc : Vec2) :
    List Planet → Vec2 × Planet × List Planet
  | [] => (acc, self, [])
  | other :: rest =>
    let r1 := updateLoop Gc e sq self acc rest
    let r2 := interact Gc e sq r1.2.1 r1.1 other
    (r2.1, r2.2.1, r2.2.2 :: r1.2.2)

/-- `Planet::update`: runs the pairwise loop over `others`, then integrates
`velocity += acceleration; position += velocity` and appends the new position
to the history.  Returns the updated self and the mutated `others` slice. -/
def Planet.update (Gc e : ℚ) (sq : ℚ → ℚ) (self : Planet)
    (others : List Planet) : Planet × List Planet :=
  let r := updateLoop Gc e sq self 0 others
  let velocity := r.2.1.velocity + r.1
  let position := r.2.1.position + velocity
  ({ r.2.1 with velocity := velocity, position := position,
                history := r.2.1.history ++ [position] }, r.2.2)

/-- The loop of `update_planets`: each planet is updated in order against the
clone, and the clone (mutated by collision impulses) threads to the next
iteration. -/
def updateAll (Gc e : ℚ) (sq : ℚ → ℚ) : List Planet → List Planet → List Planet
  | [], _ => []
  | p :: rest, clone =>
    let r := Planet.update Gc e sq p clone
    r.1 :: updateAll Gc e sq rest r.2

/-- `update_planets`: clones the planet list once, then updates each planet in
order against the threaded clone, exactly as in main.rs. -/
def update_planets (Gc e : ℚ) (sq : ℚ → ℚ) (planets : List Planet) :
    List Planet :=
  updateAll Gc e sq planets planets

/-- `update_planets` with the program's constants `G` and
`RESTITUTION_COEFFICIENT`. -/
def update_planets_code (sq : ℚ → ℚ) (planets : List Planet) : List Planet :=
  update_planets G RESTITUTION_COEFFICIENT sq planets

/-- Iterated physics frames: `n` successive calls of `update_planets`. -/
def stepN (Gc e : ℚ) (sq : ℚ → ℚ) : ℕ → List Planet → List Planet
  | 0, ps => ps
  | n + 1, ps => stepN Gc e sq n (update_planets Gc e sq ps)

/-- `Vec::remove(index)` on the planet store: deletes the element at the given
index and shifts the rest down (total here; the Rust version panics out of
bounds, and every call site passes an in-bounds index). -/
def storeRemove : List Planet → ℕ → List Planet
  | [], _ => []
  | _ :: rest, 0 => rest
  | p :: rest, i + 1 => p :: storeRemove rest i

/-- The spawn path of `handle_input`: `planets.push(Planet::new(...))` appends
a freshly constructed planet to the store. -/
def spawnPlanet (planets : List Planet) (position : Vec2) (radius : ℚ)
    (velocity : Vec2) (mass : ℚ) (color : Color) : List Planet :=
  planets ++ [Planet.new position radius velocity mass color]

/-- Store-mutating events of one frame: a spawn (right click), a removal
(the Remove button of draw_ui), or a physics step. -/
inductive Ev where
  | spawn (position : Vec2) (radius : ℚ) (velocity : Vec2) (mass : ℚ)
      (color : Color)
  | remove (i : ℕ)
  | step
deriving Repr

/-- Effect of one event on the planet store. -/
def applyEv (sq : ℚ → ℚ) (planets : List Planet) : Ev → List Planet
  | .spawn position radius velocity mass color =>
      spawnPlanet planets position radius velocity mass color
  | .remove i => storeRemove planets i
  | .step => update_planets_code sq planets

/-- Runs a sequence of frame events on the store. -/
def runEvents (sq : ℚ → ℚ) (planets : List Planet) : List Ev → List Planet
  | [] => planets
  | e :: rest => runEvents sq (applyEv sq planets e) rest

/-- Modelled from the spec: the parameter-editor sliders of draw_ui constrain
the next-spawn radius to the range 1..100 and the mass to 1..1000 (macroquad's
slider widget, external to this repository, keeps the dragged value inside its
range; the spec requires that the editor UI "must not allow non-positive
values to reach the store").  Remove and step events carry no parameters to
constrain. -/
def sliderOk : Ev → Prop
  | .spawn _ radius _ mass _ => 1 ≤ radius ∧ radius ≤ 100 ∧ 1 ≤ mass ∧ mass ≤ 1000
  | .remove _ => True
  | .step => True

/-- The pieces of program state that the focused-index logic touches: the
planet store and the camera-follow index `target` of `main`. -/
structure AppState where
  planets : List Planet
  target : ℕ
deriving Repr

/-- The Remove-button action of draw_ui: removes the planet at the chosen
index from the store.  draw_ui does not touch the focused index. -/
def drawUiRemove (st : AppState) (i : ℕ) : AppState :=
  { st with planets := storeRemove st.planets i }

/-- The camera-follow logic at the top of the main loop: when the store is
empty, `target` is reset to 0 and nothing is read; otherwise main evaluates
`planets[target].position`, modelled with an optional lookup whose `none`
stands for the out-of-bounds panic of a Rust index. -/
def frameFocus (st : AppState) : AppState × Option Vec2 :=
  if st.planets.isEmpty then ({ st with target := 0 }, none)
  else (st, (st.planets[st.target]?).map Planet.position)

/-- Written from the claim and the spec wording, not from the source: a
physics step that keeps a single live body list (no frame-start clone) and
applies each collision impulse immediately to BOTH live bodies of a pair, so
that each unordered pair's impulse lands on each body twice per frame, once
computed from each side.  One inner-loop iteration of body `b` against the
live body at index `i`. -/
def inPlaceInteractAt (Gc e : ℚ) (sq : ℚ → ℚ) (b : ℕ) (st : Vec2 × List Planet)
    (i : ℕ) : Vec2 × List Planet :=
  match st.2[b]?, st.2[i]? with
  | some self, some other =>
    if self.position = other.position then st
    else
      let direction := other.position - self.position
      let distance_squared := direction.length_squared
      let acc2 := st.1 + gravContrib Gc sq self other
      if distance_squared ≤ (self.radius + other.radius) ^ 2 then
        let collision_normal := direction.normalize sq
        let relative_velocity := self.velocity - other.velocity
        let impulse := (2 * self.mass * other.mass) / (self.mass + other.mass)
            * relative_velocity.dot collision_normal * e
        (acc2,
         (st.2.set b
             { self with velocity := self.velocity - impulse • collision_normal }).set i
           { other with velocity := other.velocity + impulse • collision_normal })
      else (acc2, st.2)
  | _, _ => st

/-- Written from the claim and the spec wording: the full inner loop and
integration for live body `b` (indices visited in reverse, as in the code),
acting on the single live list. -/
def inPlaceBodyUpdate (Gc e : ℚ) (sq : ℚ → ℚ) (bs : List Planet) (b : ℕ) :
    List Planet :=
  let r := ((List.range bs.length).reverse).foldl (inPlaceInteractAt Gc e sq b)
      (0, bs)
  match r.2[b]? with
  | none => r.2
  | some self2 =>
    let velocity := self2.velocity + r.1
    let position := self2.position + velocity
    r.2.set b { self2 with velocity := velocity, position := position,
                           history := self2.history ++ [position] }

/-- Written from the claim and the spec wording: the physics step with
immediate impulse application to both live bodies (no clone). -/
def update_planets_spec_inplace (Gc e : ℚ) (sq : ℚ → ℚ)
    (planets : List Planet) : List Planet :=
  (List.range planets.length).foldl (inPlaceBodyUpdate Gc e sq) planets

/-- Concrete square-root table used by concrete instances: exact on the
perfect squares 10000 and 100 that those instances reach. -/
def sqDemo : ℚ → ℚ := fun q => if q = 10000 then 100 else if q = 100 then 10 else 0

/-- Plain white color used by concrete instances. -/
def white : Color := ⟨1, 1, 1, 1⟩

/-- Concrete square-root table for the clone-versus-in-place comparison: exact
on both perfect squares that either run reaches (`10^2` for the frame-start
distance and `9.299^2` for the distance after the in-place variant has moved
the first body). -/
def sqC1 : ℚ → ℚ := fun q =>
  if q = 100 then 10 else if q = 86471401 / 1000000 then 9299 / 1000 else 0

/-- Two overlapping unit-mass bodies approaching head on, used by the
clone-versus-in-place comparison. -/
def cA1 : Planet := ⟨⟨0, 0⟩, 10, ⟨1, 0⟩, 1, [], white⟩

/-- Partner body of `cA1`. -/
def cB1 : Planet := ⟨⟨10, 0⟩, 10, ⟨0, 0⟩, 1, [], white⟩

/-- Concrete light body mirroring the first initial planet of `main`
(mass 5, radius 5). -/
def p8a : Planet := ⟨⟨0, 0⟩, 5, ⟨0, 0⟩, 5, [], white⟩

/-- Concrete heavy body mirroring the second initial planet of `main`
(mass 10, radius 10, 100 units to the right). -/
def p8b : Planet := ⟨⟨100, 0⟩, 10, ⟨0, 0⟩, 10, [], white⟩

/-- Third concrete body for the removal re-indexing instance. -/
def p9c : Planet := ⟨⟨200, 0⟩, 1, ⟨0, 0⟩, 1, [], white⟩

/-! Componentwise descriptions of the vector operations. -/

@[simp] theorem Vec2.add_def (a b : Vec2) : a + b = ⟨a.x + b.x, a.y + b.y⟩ := rfl

@[simp] theorem Vec2.sub_def (a b : Vec2) : a - b = ⟨a.x - b.x, a.y - b.y⟩ := rfl

@[simp] theorem Vec2.neg_def (a : Vec2) : -a = ⟨-a.x, -a.y⟩ := rfl

@[simp] theorem Vec2.smul_def (c : ℚ) (v : Vec2) : c • v = ⟨c * v.x, c * v.y⟩ := rfl

@[simp] theorem Vec2.zero_def : (0 : Vec2) = ⟨0, 0⟩ := rfl

@[simp] theorem Vec2.zero_x : (0 : Vec2).x = 0 := rfl

@[simp] theorem Vec2.zero_y : (0 : Vec2).y = 0 := rfl

@[simp] theorem Vec2.add_zero (v : Vec2) : v + 0 = v := by
  ext <;> simp

@[simp] theorem Vec2.zero_add (v : Vec2) : 0 + v = v := by
  ext <;> simp

theorem Vec2.length_squared_neg (v : Vec2) :
    (-v).length_squared = v.length_squared := by
  simp [Vec2.length_squared]

/-! Branch descriptions of one inner-loop iteration. -/

theorem interact_skip (Gc e : ℚ) (sq : ℚ → ℚ) (self : Planet) (acc : Vec2)
    (other : Planet) (h : self.position = other.position) :
    interact Gc e sq self acc other = (acc, self, other) := by
  simp only [interact, if_pos h]

theorem interact_far (Gc e : ℚ) (sq : ℚ → ℚ) (self : Planet) (acc : Vec2)
    (other : Planet) (h : ¬ self.position = other.position)
    (h2 : ¬ (other.position - self.position).length_squared ≤
      (self.radius + other.radius) ^ 2) :
    interact Gc e sq self acc other =
      (acc + gravContrib Gc sq self other, self, other) := by
  simp only [interact, if_neg h, if_neg h2]

theorem interact_hit (Gc e : ℚ) (sq : ℚ → ℚ) (self : Planet) (acc : Vec2)
    (other : Planet) (h : ¬ self.position = other.position)
    (h2 : (other.position - self.position).length_squared ≤
      (self.radius + other.radius) ^ 2) :
    interact Gc e sq self acc other =
      (acc + gravContrib Gc sq self other,
       { self with velocity := self.velocity -
          ((2 * self.mass * other.mass) / (self.mass + other.mass)
            * (self.velocity - other.velocity).dot
                ((other.position - self.position).normalize sq) * e) •
            (other.position - self.position).normalize sq },
       { other with velocity := other.velocity +
          ((2 * self.mass * other.mass) / (self.mass + other.mass)
            * (self.velocity - other.velocity).dot
                ((other.position - self.position).normalize sq) * e) •
            (other.position - self.position).normalize sq }) := by
  simp only [interact, if_neg h, if_pos h2]

/-- The inner loop changes nothing of `self` but its velocity. -/
theorem interact_self_eta (Gc e : ℚ) (sq : ℚ → ℚ) (self : Planet) (acc : Vec2)
    (other : Planet) :
    (interact Gc e sq self acc other).2.1 =
      { self with velocity := (interact Gc e sq self acc other).2.1.velocity } := by
  simp only [interact]
  split
  · rfl
  · split
    · rfl
    · rfl

/-- The inner loop changes nothing of `other` but its velocity. -/
theorem interact_other_eta (Gc e : ℚ) (sq : ℚ → ℚ) (self : Planet) (acc : Vec2)
    (other : Planet) :
    (interact Gc e sq self acc other).2.2 =
      { other with velocity := (interact Gc e sq self acc other).2.2.velocity } := by
  simp only [interact]
  split
  · rfl
  · split
    · rfl
    · rfl

theorem updateLoop_self_eta (Gc e : ℚ) (sq : ℚ → ℚ) (self : Planet) (acc : Vec2) :
    ∀ others : List Planet,
      (updateLoop Gc e sq self acc others).2.1 =
        { self with velocity := (updateLoop Gc e sq self acc others).2.1.velocity }
  | [] => rfl
  | other :: rest => by
    simp only [updateLoop]
    rw [interact_self_eta, updateLoop_self_eta Gc e sq self acc rest]

/-- `Planet::update` leaves mass, radius and color alone, moves the position
by the new velocity, and appends the new position to the history. -/
theorem update_fst_shape (Gc e : ℚ) (sq : ℚ → ℚ) (p : Planet)
    (c : List Planet) :
    ∃ v : Vec2, (Planet.update Gc e sq p c).1 =
      { p with velocity := v, position := p.position + v,
               history := p.history ++ [p.position + v] } := by
  refine ⟨(updateLoop Gc e sq p 0 c).2.1.velocity + (updateLoop Gc e sq p 0 c).1, ?_⟩
  simp only [Planet.update]
  rw [updateLoop_self_eta]

theorem updateAll_length (Gc e : ℚ) (sq : ℚ → ℚ) :
    ∀ ps clone : List Planet, (updateAll Gc e sq ps clone).length = ps.length
  | [], _ => rfl
  | p :: rest, clone => by
    simp only [updateAll, List.length_cons, updateAll_length]

/-- Every element of the step's output is the first component of
`Planet.update` of the matching input element against some clone state. -/
theorem updateAll_get (Gc e : ℚ) (sq : ℚ → ℚ) :
    ∀ (ps clone : List Planet) (i : ℕ) (p : Planet), ps[i]? = some p →
      ∃ c, (updateAll Gc e sq ps clone)[i]? = some (Planet.update Gc e sq p c).1
  | [], _, i, p, h => by simp at h
  | q :: rest, clone, 0, p, h => by
    have hq : q = p := by simpa using h
    subst hq
    exact ⟨clone, by simp [updateAll]⟩
  | q :: rest, clone, i + 1, p, h => by
    have h2 : rest[i]? = some p := by simpa using h
    obtain ⟨c, hc⟩ :=
      updateAll_get Gc e sq rest (Planet.update Gc e sq q clone).2 i p h2
    exact ⟨c, by simpa [updateAll] using hc⟩

/-- One physics frame, seen from a single body: the body keeps its mass,
radius and color, gains some velocity `v`, moves by `v`, and appends the new
position to its history. -/
theorem step_get (Gc e : ℚ) (sq : ℚ → ℚ) (ps : List Planet) (i : ℕ)
    (p : Planet) (h : ps[i]? = some p) :
    ∃ v : Vec2, (update_planets Gc e sq ps)[i]? =
      some { p with velocity := v, position := p.position + v,
                    history := p.history ++ [p.position + v] } := by
  obtain ⟨c, hc⟩ := updateAll_get Gc e sq ps ps i p h
  obtain ⟨v, hv⟩ := update_fst_shape Gc e sq p c
  exact ⟨v, by rw [update_planets, hc, hv]⟩

/-- Unfolding of the step on a two-element store. -/
theorem update_planets_pair (Gc e : ℚ) (sq : ℚ → ℚ) (a b : Planet) :
    update_planets Gc e sq [a, b] =
      [(Planet.update Gc e sq a [a, b]).1,
       (Planet.update Gc e sq b (Planet.update Gc e sq a [a, b]).2).1] := rfl

/-- Unfolding of the reverse inner loop on a two-element slice: the tail
element is visited first. -/
theorem updateLoop_pair (Gc e : ℚ) (sq : ℚ → ℚ) (self : Planet) (acc : Vec2)
    (o1 o2 : Planet) :
    updateLoop Gc e sq self acc [o1, o2] =
      ((interact Gc e sq (interact Gc e sq self acc o2).2.1
          (interact Gc e sq self acc o2).1 o1).1,
       (interact Gc e sq (interact Gc e sq self acc o2).2.1
          (interact Gc e sq self acc o2).1 o1).2.1,
       [(interact Gc e sq (interact Gc e sq self acc o2).2.1
          (interact Gc e sq self acc o2).1 o1).2.2,
        (interact Gc e sq self acc o2).2.2]) := rfl

/-- Full description of one physics frame on a two-body store whose bodies sit
on a horizontal line (`a` left of `b`) and overlap.  Each body's velocity
receives its own side's collision impulse exactly once (the `+=` half of each
impulse lands on the frame-start clone, not on the live body), plus its own
gravity term. -/
theorem twoBody_axis_velocities (Gc e : ℚ) (sq : ℚ → ℚ)
    (ax bx y ra rb ma mb : ℚ) (va vb : Vec2) (hsA hsB : List Vec2)
    (cA cB : Color)
    (hlt : ax < bx) (hsq : sq ((bx - ax) ^ 2) = bx - ax)
    (hov : (bx - ax) ^ 2 ≤ (ra + rb) ^ 2) :
    (update_planets Gc e sq
        [⟨⟨ax, y⟩, ra, va, ma, hsA, cA⟩, ⟨⟨bx, y⟩, rb, vb, mb, hsB, cB⟩]).map
        Planet.velocity =
      [⟨va.x - 2 * ma * mb / (ma + mb) * (va.x - vb.x) * e
          + Gc * (mb * ma / (bx - ax) ^ 2), va.y⟩,
       ⟨vb.x + 2 * ma * mb / (ma + mb) * (va.x - vb.x) * e
          - Gc * (mb * ma / (bx - ax) ^ 2), vb.y⟩] := by
  have hne : bx - ax ≠ 0 := sub_ne_zero.mpr (ne_of_gt hlt)
  have hx : ¬ (ax = bx) := ne_of_lt hlt
  have hx2 : ¬ (bx = ax) := ne_of_gt hlt
  have hovm : (bx - ax) * (bx - ax) ≤ (ra + rb) ^ 2 := by
    calc (bx - ax) * (bx - ax) = (bx - ax) ^ 2 := by ring
    _ ≤ (ra + rb) ^ 2 := hov
  have hovm2 : (ax - bx) * (ax - bx) ≤ (rb + ra) ^ 2 := by
    calc (ax - bx) * (ax - bx) = (bx - ax) ^ 2 := by ring
    _ ≤ (ra + rb) ^ 2 := hov
    _ = (rb + ra) ^ 2 := by ring
  have hsqm : sq ((bx - ax) * (bx - ax)) = bx - ax := by
    rw [show (bx - ax) * (bx - ax) = (bx - ax) ^ 2 by ring]; exact hsq
  have hsqm2 : sq ((ax - bx) * (ax - bx)) = bx - ax := by
    rw [show (ax - bx) * (ax - bx) = (bx - ax) ^ 2 by ring]; exact hsq
  have hinv : (bx - ax)⁻¹ * (bx - ax) = 1 := inv_mul_cancel₀ hne
  have hinv2 : (bx - ax)⁻¹ * (ax - bx) = -1 := by
    field_simp
  simp [update_planets, updateAll, Planet.update, updateLoop, interact,
    gravContrib, Vec2.normalize, Vec2.length_squared, Vec2.dot,
    hx, hx2, hovm, hovm2, hsqm, hsqm2, hinv, hinv2]
  constructor
  · left
    ring
  · ring

/-- Characterization of `Vec::remove` on an in-bounds index: the length drops
by one, indices below the removed one are untouched, indices at or above it
shift down by one. -/
theorem storeRemove_spec : ∀ (l : List Planet) (i : ℕ), i < l.length →
    (storeRemove l i).length = l.length - 1 ∧
    ∀ j : ℕ, (storeRemove l i)[j]? = if j < i then l[j]? else l[j + 1]?
  | [], i, h => absurd h (by simp)
  | p :: rest, 0, h => by
    refine ⟨by simp [storeRemove], ?_⟩
    intro j
    simp [storeRemove]
  | p :: rest, i + 1, h => by
    have h2 : i < rest.length := by simpa using h
    obtain ⟨hl, hg⟩ := storeRemove_spec rest i h2
    refine ⟨?_, ?_⟩
    · simp only [storeRemove, List.length_cons, hl]
      omega
    · intro j
      cases j with
      | zero => simp [storeRemove]
      | succ j => simp [storeRemove, hg j, Nat.succ_lt_succ_iff]

/-- Every member of the step's output store descends from a member of the
input store with the same mass and radius. -/
theorem step_mem (Gc e : ℚ) (sq : ℚ → ℚ) (ps : List Planet) (p' : Planet)
    (h : p' ∈ update_planets Gc e sq ps) :
    ∃ p ∈ ps, p'.mass = p.mass ∧ p'.radius = p.radius := by
  obtain ⟨i, hi, he⟩ := List.mem_iff_getElem.mp h
  have hi2 : (update_planets Gc e sq ps)[i]? = some p' := by
    rw [List.getElem?_eq_getElem hi, he]
  have hlen : i < ps.length := by
    have h3 := hi
    rwa [update_planets, updateAll_length] at h3
  obtain ⟨v, hv⟩ := step_get Gc e sq ps i ps[i] (List.getElem?_eq_getElem hlen)
  rw [hv] at hi2
  have hp' : p' = { ps[i] with
      velocity := v, position := ps[i].position + v,
      history := ps[i].history ++ [ps[i].position + v] } :=
    (Option.some_inj.mp hi2).symm
  exact ⟨ps[i], List.getElem_mem hlen, by rw [hp'], by rw [hp']⟩

/-- Removal never introduces new members into the store. -/
theorem storeRemove_mem :
    ∀ (l : List Planet) (i : ℕ) (q : Planet), q ∈ storeRemove l i → q ∈ l
  | [], i, q, h => by simp [storeRemove] at h
  | p :: rest, 0, q, h => by
    simp only [storeRemove] at h
    exact List.mem_cons_of_mem p h
  | p :: rest, i + 1, q, h => by
    simp only [storeRemove, List.mem_cons] at h ⊢
    rcases h with h | h
    · exact Or.inl h
    · exact Or.inr (storeRemove_mem rest i q h)

/-- Across `n` frames, a body's history grows by exactly `n` entries and the
original history stays as an unchanged prefix. -/
theorem stepN_history_growth (Gc e : ℚ) (sq : ℚ → ℚ) :
    ∀ (n : ℕ) (ps : List Planet) (i : ℕ) (p : Planet), ps[i]? = some p →
      ∃ q : Planet, (stepN Gc e sq n ps)[i]? = some q ∧
        q.history.length = p.history.length + n ∧ p.history <+: q.history
  | 0, ps, i, p, h => ⟨p, h, by simp [stepN], List.prefix_rfl⟩
  | n + 1, ps, i, p, h => by
    obtain ⟨v, hv⟩ := step_get Gc e sq ps i p h
    obtain ⟨q, hq, hlen, hpre⟩ :=
      stepN_history_growth Gc e sq n (update_planets Gc e sq ps) i _ hv
    refine ⟨q, hq, ?_, ?_⟩
    · simp at hlen
      omega
    · exact List.IsPrefix.trans ⟨[p.position + v], rfl⟩ hpre

/-- Store positivity invariant: starting from a store of bodies with positive
mass and radius, any sequence of slider-constrained spawns, removals and
physics steps keeps every stored body's mass and radius positive. -/
theorem runEvents_positivity (sq : ℚ → ℚ) :
    ∀ (events : List Ev) (ps : List Planet),
      (∀ p ∈ ps, 0 < p.mass ∧ 0 < p.radius) →
      (∀ ev ∈ events, sliderOk ev) →
      ∀ p ∈ runEvents sq ps events, 0 < p.mass ∧ 0 < p.radius
  | [], ps, hps, _, p, hp => hps p hp
  | ev :: rest, ps, hps, hev, p, hp => by
    apply runEvents_positivity sq rest (applyEv sq ps ev) ?_
      (fun x hx => hev x (List.mem_cons_of_mem ev hx)) p hp
    intro q hq
    cases ev with
    | spawn pos r v m c =>
      simp only [applyEv, spawnPlanet, List.mem_append, List.mem_singleton] at hq
      rcases hq with hq | hq
      · exact hps q hq
      · subst hq
        have hs := hev _ (List.mem_cons_self _ _)
        simp only [sliderOk] at hs
        constructor
        · simp only [Planet.new]
          linarith [hs.2.2.1]
        · simp only [Planet.new]
          linarith [hs.1]
    | remove i => exact hps q (storeRemove_mem _ i q hq)
    | step =>
      obtain ⟨p0, hp0, hm, hr⟩ := step_mem G RESTITUTION_COEFFICIENT sq ps q hq
      have h0 := hps p0 hp0
      exact ⟨hm ▸ h0.1, hr ▸ h0.2⟩

/-- C2: for two bodies with masses 5 and 10, radii 5 and 10, positions exactly
100 units apart, zero initial velocity and `G = 0.1`, a single physics step
moves each body toward the other by exactly `0.1*5*10/100^2 = 5e-4` units (the
per-body magnitude `G*massOther*massSelf/d^2`, which includes self-mass): the
displacement of the light body is the vector `(1/200000)·(q-p)` of squared
length `(1/2000)^2`, and symmetrically for the heavy body. -/
theorem C2_concrete_scenario (sq : ℚ → ℚ) (p q : Vec2) (hsA hsB : List Vec2)
    (cA cB : Color)
    (hd : (q - p).length_squared = 10000) (hsq : sq 10000 = 100) :
    update_planets_code sq [⟨p, 5, 0, 5, hsA, cA⟩, ⟨q, 10, 0, 10, hsB, cB⟩] =
      [⟨p + (1 / 200000 : ℚ) • (q - p), 5, (1 / 200000 : ℚ) • (q - p), 5,
        hsA ++ [p + (1 / 200000 : ℚ) • (q - p)], cA⟩,
       ⟨q + (1 / 200000 : ℚ) • (p - q), 10, (1 / 200000 : ℚ) • (p - q), 10,
        hsB ++ [q + (1 / 200000 : ℚ) • (p - q)], cB⟩] ∧
    ((1 / 200000 : ℚ) • (q - p)).length_squared = (1 / 2000) ^ 2 ∧
    ((1 / 200000 : ℚ) • (p - q)).length_squared = (1 / 2000) ^ 2 := by
  have hdm : (q.x - p.x) * (q.x - p.x) + (q.y - p.y) * (q.y - p.y) = 10000 := by
    simpa [Vec2.length_squared, Vec2.sub_def] using hd
  have hdm2 : (p.x - q.x) * (p.x - q.x) + (p.y - q.y) * (p.y - q.y) = 10000 := by
    linear_combination hdm
  have hp : ¬ p = q := by
    intro h
    rw [h] at hd
    norm_num [Vec2.length_squared, Vec2.sub_def] at hd
  have hp2 : ¬ q = p := fun h => hp h.symm
  refine ⟨?_, ?_, ?_⟩
  · norm_num [update_planets_code, update_planets, updateAll, Planet.update,
      updateLoop, interact, gravContrib, Vec2.normalize, Vec2.length_squared,
      Vec2.dot, G, RESTITUTION_COEFFICIENT, hp, hp2, hdm, hdm2, hsq]
    refine ⟨⟨?_, ?_⟩, ?_, ?_⟩ <;> ring
  · simp only [Vec2.smul_def, Vec2.sub_def, Vec2.length_squared]
    linear_combination ((1 : ℚ) / 200000) ^ 2 * hdm
  · simp only [Vec2.smul_def, Vec2.sub_def, Vec2.length_squared]
    linear_combination ((1 : ℚ) / 200000) ^ 2 * hdm2

/-- Witness for C2 at the concrete axis-aligned instance `p = (0,0)`,
`q = (100,0)` with the exact square root `sqDemo`. -/
theorem C2_concrete_scenario_witness :
    (((⟨100, 0⟩ : Vec2) - ⟨0, 0⟩).length_squared = 10000) ∧
    (sqDemo 10000 = 100) ∧
    (update_planets_code sqDemo
        [⟨⟨0, 0⟩, 5, 0, 5, [], white⟩, ⟨⟨100, 0⟩, 10, 0, 10, [], white⟩] =
      [⟨⟨0, 0⟩ + (1 / 200000 : ℚ) • ((⟨100, 0⟩ : Vec2) - ⟨0, 0⟩), 5,
        (1 / 200000 : ℚ) • ((⟨100, 0⟩ : Vec2) - ⟨0, 0⟩), 5,
        [] ++ [(⟨0, 0⟩ : Vec2) + (1 / 200000 : ℚ) • ((⟨100, 0⟩ : Vec2) - ⟨0, 0⟩)],
        white⟩,
       ⟨⟨100, 0⟩ + (1 / 200000 : ℚ) • ((⟨0, 0⟩ : Vec2) - ⟨100, 0⟩), 10,
        (1 / 200000 : ℚ) • ((⟨0, 0⟩ : Vec2) - ⟨100, 0⟩), 10,
        [] ++ [(⟨100, 0⟩ : Vec2) + (1 / 200000 : ℚ) • ((⟨0, 0⟩ : Vec2) - ⟨100, 0⟩)],
        white⟩] ∧
     ((1 / 200000 : ℚ) • ((⟨100, 0⟩ : Vec2) - ⟨0, 0⟩)).length_squared =
       (1 / 2000) ^ 2 ∧
     ((1 / 200000 : ℚ) • ((⟨0, 0⟩ : Vec2) - ⟨100, 0⟩)).length_squared =
       (1 / 2000) ^ 2) :=
  ⟨by norm_num [Vec2.length_squared], by norm_num [sqDemo],
   C2_concrete_scenario sqDemo ⟨0, 0⟩ ⟨100, 0⟩ [] [] white white
     (by norm_num [Vec2.length_squared]) (by norm_num [sqDemo])⟩

/-- C3 counterexample: with no gravity, restitution 1 and equal masses 2, a
head-on overlapping collision does NOT end with the velocities exchanged; the
code applies the impulse `2*m*m/(m+m) * vrel·n * e` directly to the velocity
without dividing by mass, so the change is scaled by the mass. -/
theorem C3_counterexample_no_swap_mass_two :
    (update_planets 0 1 sqDemo
        [⟨⟨0, 0⟩, 10, ⟨1, 0⟩, 2, [], white⟩,
         ⟨⟨10, 0⟩, 10, ⟨0, 0⟩, 2, [], white⟩]).map Planet.velocity ≠
      [⟨0, 0⟩, ⟨1, 0⟩] := by
  intro h
  rw [twoBody_axis_velocities 0 1 sqDemo 0 10 0 10 10 2 2 ⟨1, 0⟩ ⟨0, 0⟩ [] []
    white white (by norm_num) (by norm_num [sqDemo]) (by norm_num)] at h
  norm_num at h

/-- C3 amended: with no gravity, equal masses `m` and an overlapping axis
aligned pair, one step changes each body's velocity along the collision
normal by `m * (approach speed) * e` — the impulse is applied without
dividing by mass, so the velocities swap scaled by `e` only when `m = 1`
(for `e = 1` and `m = 1` they exchange fully). -/
theorem C3_amended_equal_mass_collision (e : ℚ) (sq : ℚ → ℚ)
    (ax bx y ra rb m : ℚ) (va vb : Vec2) (hsA hsB : List Vec2) (cA cB : Color)
    (hlt : ax < bx) (hsq : sq ((bx - ax) ^ 2) = bx - ax)
    (hov : (bx - ax) ^ 2 ≤ (ra + rb) ^ 2) (hm : m ≠ 0) :
    (update_planets 0 e sq
        [⟨⟨ax, y⟩, ra, va, m, hsA, cA⟩, ⟨⟨bx, y⟩, rb, vb, m, hsB, cB⟩]).map
        Planet.velocity =
      [⟨va.x - m * (va.x - vb.x) * e, va.y⟩,
       ⟨vb.x + m * (va.x - vb.x) * e, vb.y⟩] := by
  have hmm : m + m ≠ 0 := by
    intro h
    exact hm (by linarith)
  have h2m : 2 * m * m / (m + m) = m := by
    field_simp
    ring
  rw [twoBody_axis_velocities 0 e sq ax bx y ra rb m m va vb hsA hsB cA cB
    hlt hsq hov, h2m]
  norm_num

/-- Witness for the amended C3 at mass 1 and restitution 1: the velocities
fully exchange along the collision normal. -/
theorem C3_amended_equal_mass_collision_witness :
    ((0 : ℚ) < 10) ∧ (sqDemo (((10 : ℚ) - 0) ^ 2) = 10 - 0) ∧
    (((10 : ℚ) - 0) ^ 2 ≤ ((10 : ℚ) + 10) ^ 2) ∧ ((1 : ℚ) ≠ 0) ∧
    (update_planets 0 1 sqDemo
        [⟨⟨0, 0⟩, 10, ⟨1, 0⟩, 1, [], white⟩,
         ⟨⟨10, 0⟩, 10, ⟨0, 0⟩, 1, [], white⟩]).map Planet.velocity =
      [⟨0, 0⟩, ⟨1, 0⟩] := by
  refine ⟨by norm_num, by norm_num [sqDemo], by norm_num, by norm_num, ?_⟩
  rw [C3_amended_equal_mass_collision 1 sqDemo 0 10 0 10 10 1 ⟨1, 0⟩ ⟨0, 0⟩
    [] [] white white (by norm_num) (by norm_num [sqDemo]) (by norm_num)
    (by norm_num)]
  norm_num

/-- C4: for two bodies with distinct positions and no overlap, the
gravitational acceleration contributions they exert on each other during one
step are exact opposites, and in particular have equal squared magnitude
(`G*mA*mB/d^2` is symmetric in the two bodies). -/
theorem C4_gravity_symmetry (Gc : ℚ) (sq : ℚ → ℚ) (A B : Planet)
    (_hpos : A.position ≠ B.position)
    (_hfar : (A.radius + B.radius) ^ 2 < (B.position - A.position).length_squared) :
    gravContrib Gc sq A B = - gravContrib Gc sq B A ∧
    (gravContrib Gc sq A B).length_squared =
      (gravContrib Gc sq B A).length_squared := by
  have harg : (A.position - B.position).length_squared =
      (B.position - A.position).length_squared := by
    simp [Vec2.length_squared]
    ring
  have h1 : gravContrib Gc sq A B = - gravContrib Gc sq B A := by
    simp only [gravContrib, Vec2.normalize, harg]
    ext <;> simp <;> ring
  exact ⟨h1, by rw [h1, Vec2.length_squared_neg]⟩

/-- Witness for C4 on the two concrete initial-style bodies 100 units
apart. -/
theorem C4_gravity_symmetry_witness :
    (p8a.position ≠ p8b.position) ∧
    ((p8a.radius + p8b.radius) ^ 2 <
      (p8b.position - p8a.position).length_squared) ∧
    (gravContrib G sqDemo p8a p8b = - gravContrib G sqDemo p8b p8a ∧
     (gravContrib G sqDemo p8a p8b).length_squared =
       (gravContrib G sqDemo p8b p8a).length_squared) :=
  ⟨by norm_num [p8a, p8b], by norm_num [p8a, p8b, Vec2.length_squared],
   C4_gravity_symmetry G sqDemo p8a p8b (by norm_num [p8a, p8b])
     (by norm_num [p8a, p8b, Vec2.length_squared])⟩

/-- C5: a pair of bodies whose positions are exactly equal at the start of the
step is skipped entirely — the inner-loop iteration for such a pair adds no
gravity and applies no collision impulse (the self-exclusion test is
coordinate equality, not identity) — and consequently a store of two bodies at
the same coordinates steps with both velocities unchanged, each body just
drifting by its own velocity. -/
theorem C5_coincident_pair_skipped (Gc e : ℚ) (sq : ℚ → ℚ) :
    (∀ (self : Planet) (acc : Vec2) (other : Planet),
      self.position = other.position →
      interact Gc e sq self acc other = (acc, self, other)) ∧
    ∀ a b : Planet, a.position = b.position →
      update_planets Gc e sq [a, b] =
        [{ a with position := a.position + a.velocity,
                  history := a.history ++ [a.position + a.velocity] },
         { b with position := b.position + b.velocity,
                  history := b.history ++ [b.position + b.velocity] }] := by
  refine ⟨interact_skip Gc e sq, ?_⟩
  intro a b hpos
  simp [update_planets, updateAll, Planet.update, updateLoop, interact, hpos]

/-- Witness for C5: two distinct bodies sharing the position `(3,4)` pass
through each other unaffected. -/
theorem C5_coincident_pair_skipped_witness :
    ((⟨⟨3, 4⟩, 1, ⟨1, 2⟩, 1, [], white⟩ : Planet).position =
      (⟨⟨3, 4⟩, 2, ⟨-1, 0⟩, 2, [], white⟩ : Planet).position) ∧
    interact (1 / 10) (3 / 10) sqDemo ⟨⟨3, 4⟩, 1, ⟨1, 2⟩, 1, [], white⟩ 0
        ⟨⟨3, 4⟩, 2, ⟨-1, 0⟩, 2, [], white⟩ =
      (0, ⟨⟨3, 4⟩, 1, ⟨1, 2⟩, 1, [], white⟩,
       ⟨⟨3, 4⟩, 2, ⟨-1, 0⟩, 2, [], white⟩) ∧
    update_planets (1 / 10) (3 / 10) sqDemo
        [⟨⟨3, 4⟩, 1, ⟨1, 2⟩, 1, [], white⟩,
         ⟨⟨3, 4⟩, 2, ⟨-1, 0⟩, 2, [], white⟩] =
      [{ (⟨⟨3, 4⟩, 1, ⟨1, 2⟩, 1, [], white⟩ : Planet) with
          position := (⟨⟨3, 4⟩, 1, ⟨1, 2⟩, 1, [], white⟩ : Planet).position +
            (⟨⟨3, 4⟩, 1, ⟨1, 2⟩, 1, [], white⟩ : Planet).velocity,
          history := (⟨⟨3, 4⟩, 1, ⟨1, 2⟩, 1, [], white⟩ : Planet).history ++
            [(⟨⟨3, 4⟩, 1, ⟨1, 2⟩, 1, [], white⟩ : Planet).position +
              (⟨⟨3, 4⟩, 1, ⟨1, 2⟩, 1, [], white⟩ : Planet).velocity] },
       { (⟨⟨3, 4⟩, 2, ⟨-1, 0⟩, 2, [], white⟩ : Planet) with
          position := (⟨⟨3, 4⟩, 2, ⟨-1, 0⟩, 2, [], white⟩ : Planet).position +
            (⟨⟨3, 4⟩, 2, ⟨-1, 0⟩, 2, [], white⟩ : Planet).velocity,
          history := (⟨⟨3, 4⟩, 2, ⟨-1, 0⟩, 2, [], white⟩ : Planet).history ++
            [(⟨⟨3, 4⟩, 2, ⟨-1, 0⟩, 2, [], white⟩ : Planet).position +
              (⟨⟨3, 4⟩, 2, ⟨-1, 0⟩, 2, [], white⟩ : Planet).velocity] }] :=
  ⟨rfl,
   (C5_coincident_pair_skipped (1 / 10) (3 / 10) sqDemo).1
     ⟨⟨3, 4⟩, 1, ⟨1, 2⟩, 1, [], white⟩ 0 ⟨⟨3, 4⟩, 2, ⟨-1, 0⟩, 2, [], white⟩ rfl,
   (C5_coincident_pair_skipped (1 / 10) (3 / 10) sqDemo).2
     ⟨⟨3, 4⟩, 1, ⟨1, 2⟩, 1, [], white⟩ ⟨⟨3, 4⟩, 2, ⟨-1, 0⟩, 2, [], white⟩ rfl⟩

/-- C1 counterexample: the program's step (which hands each body the
frame-start clone, so the `+=` half of every impulse lands on the clone) does
not agree with the step the claim describes, in which the impulse is applied
immediately to both live bodies of the pair and hence lands on each live body
twice per frame.  On two overlapping unit-mass bodies the two computations
produce different stores. -/
theorem C1_counterexample_impulse_not_doubled :
    update_planets_code sqC1 [cA1, cB1] ≠
      update_planets_spec_inplace G RESTITUTION_COEFFICIENT sqC1 [cA1, cB1] := by
  intro h
  have h1 : (update_planets_code sqC1 [cA1, cB1]).map Planet.velocity =
      [⟨701 / 1000, 0⟩, ⟨299 / 1000, 0⟩] := by
    norm_num [update_planets_code, update_planets, updateAll, Planet.update,
      updateLoop, interact, gravContrib, Vec2.normalize, Vec2.length_squared,
      Vec2.dot, G, RESTITUTION_COEFFICIENT, sqC1, cA1, cB1, white]
  have h2 : (update_planets_spec_inplace G RESTITUTION_COEFFICIENT sqC1
      [cA1, cB1]).map Planet.velocity =
      [⟨5807 / 10000, 0⟩, ⟨362439298403 / 864714010000, 0⟩] := by
    norm_num [update_planets_spec_inplace, inPlaceBodyUpdate, inPlaceInteractAt,
      List.range_succ, gravContrib, Vec2.normalize, Vec2.length_squared,
      Vec2.dot, G, RESTITUTION_COEFFICIENT, sqC1, cA1, cB1, white]
  rw [h] at h1
  rw [h1] at h2
  norm_num at h2

/-- C1 amended: the `-=` half of each collision impulse is applied immediately
to the live body being updated, while the `+=` half lands on the frame-start
clone (later-processed bodies read those clone velocities); as a result each
live body's final velocity contains its own side's impulse exactly once — not
twice — together with its gravity term, as this exact description of an
overlapping axis-aligned pair shows. -/
theorem C1_amended_clone_single_impulse (Gc e : ℚ) (sq : ℚ → ℚ)
    (ax bx y ra rb ma mb : ℚ) (va vb : Vec2) (hsA hsB : List Vec2)
    (cA cB : Color)
    (hlt : ax < bx) (hsq : sq ((bx - ax) ^ 2) = bx - ax)
    (hov : (bx - ax) ^ 2 ≤ (ra + rb) ^ 2) :
    (update_planets Gc e sq
        [⟨⟨ax, y⟩, ra, va, ma, hsA, cA⟩, ⟨⟨bx, y⟩, rb, vb, mb, hsB, cB⟩]).map
        Planet.velocity =
      [⟨va.x - 2 * ma * mb / (ma + mb) * (va.x - vb.x) * e
          + Gc * (mb * ma / (bx - ax) ^ 2), va.y⟩,
       ⟨vb.x + 2 * ma * mb / (ma + mb) * (va.x - vb.x) * e
          - Gc * (mb * ma / (bx - ax) ^ 2), vb.y⟩] :=
  twoBody_axis_velocities Gc e sq ax bx y ra rb ma mb va vb hsA hsB cA cB
    hlt hsq hov

/-- Witness for the amended C1 on the concrete overlapping unit-mass pair with
the program constants. -/
theorem C1_amended_clone_single_impulse_witness :
    ((0 : ℚ) < 10) ∧ (sqDemo (((10 : ℚ) - 0) ^ 2) = 10 - 0) ∧
    (((10 : ℚ) - 0) ^ 2 ≤ ((10 : ℚ) + 10) ^ 2) ∧
    (update_planets (1 / 10) (3 / 10) sqDemo
        [⟨⟨0, 0⟩, 10, ⟨1, 0⟩, 1, [], white⟩,
         ⟨⟨10, 0⟩, 10, ⟨0, 0⟩, 1, [], white⟩]).map Planet.velocity =
      [⟨(⟨1, 0⟩ : Vec2).x - 2 * 1 * 1 / (1 + 1) *
            ((⟨1, 0⟩ : Vec2).x - (⟨0, 0⟩ : Vec2).x) * (3 / 10)
          + (1 / 10) * (1 * 1 / ((10 : ℚ) - 0) ^ 2), (⟨1, 0⟩ : Vec2).y⟩,
       ⟨(⟨0, 0⟩ : Vec2).x + 2 * 1 * 1 / (1 + 1) *
            ((⟨1, 0⟩ : Vec2).x - (⟨0, 0⟩ : Vec2).x) * (3 / 10)
          - (1 / 10) * (1 * 1 / ((10 : ℚ) - 0) ^ 2), (⟨0, 0⟩ : Vec2).y⟩] :=
  ⟨by norm_num, by norm_num [sqDemo], by norm_num,
   C1_amended_clone_single_impulse (1 / 10) (3 / 10) sqDemo 0 10 0 10 10 1 1
     ⟨1, 0⟩ ⟨0, 0⟩ [] [] white white (by norm_num) (by norm_num [sqDemo])
     (by norm_num)⟩

/-- C6: across `n` successive physics steps every body survives with its
history grown by exactly `n` appended positions, and the previous history is
left in place as a prefix (never truncated or reordered). -/
theorem C6_history_growth (Gc e : ℚ) (sq : ℚ → ℚ) (n : ℕ) (ps : List Planet)
    (i : ℕ) (p : Planet) (h : ps[i]? = some p) :
    ∃ q : Planet, (stepN Gc e sq n ps)[i]? = some q ∧
      q.history.length = p.history.length + n ∧ p.history <+: q.history :=
  stepN_history_growth Gc e sq n ps i p h

/-- Witness for C6: two frames on a one-body store append exactly two history
entries. -/
theorem C6_history_growth_witness :
    (([p8a] : List Planet)[0]? = some p8a) ∧
    ∃ q : Planet, (stepN (1 / 10) (3 / 10) sqDemo 2 [p8a])[0]? = some q ∧
      q.history.length = p8a.history.length + 2 ∧ p8a.history <+: q.history :=
  ⟨rfl, C6_history_growth (1 / 10) (3 / 10) sqDemo 2 [p8a] 0 p8a rfl⟩

/-- C7 counterexample: `Planet::new` itself enforces nothing — it accepts a
non-positive mass and radius unchanged, so positivity is not "enforced at
creation". -/
theorem C7_counterexample_new_accepts_nonpositive :
    ¬ (0 < (Planet.new ⟨0, 0⟩ (-1) 0 (-1) white).mass ∧
       0 < (Planet.new ⟨0, 0⟩ (-1) 0 (-1) white).radius) := by
  norm_num [Planet.new]

/-- C7 amended: `Planet::new` performs no validation, but every body that
actually reaches the store has positive mass and radius: the initial bodies
do, spawned bodies carry the slider-constrained editor parameters (radius in
1..100, mass in 1..1000), and removal and the physics step never change mass
or radius, so the invariant holds through any frame-event sequence. -/
theorem C7_amended_store_positivity (sq : ℚ → ℚ) (events : List Ev)
    (ps : List Planet)
    (hps : ∀ p ∈ ps, 0 < p.mass ∧ 0 < p.radius)
    (hev : ∀ ev ∈ events, sliderOk ev) :
    ∀ p ∈ runEvents sq ps events, 0 < p.mass ∧ 0 < p.radius :=
  runEvents_positivity sq events ps hps hev

/-- Witness for the amended C7: a spawn, a step and a removal on the two
initial-style bodies keep every stored mass and radius positive. -/
theorem C7_amended_store_positivity_witness :
    (∀ p ∈ ([p8a, p8b] : List Planet), 0 < p.mass ∧ 0 < p.radius) ∧
    (∀ ev ∈ [Ev.spawn ⟨50, 50⟩ 10 ⟨0, 0⟩ 10 white, Ev.step, Ev.remove 0],
      sliderOk ev) ∧
    ∀ p ∈ runEvents sqDemo [p8a, p8b]
        [Ev.spawn ⟨50, 50⟩ 10 ⟨0, 0⟩ 10 white, Ev.step, Ev.remove 0],
      0 < p.mass ∧ 0 < p.radius := by
  have h1 : ∀ p ∈ ([p8a, p8b] : List Planet), 0 < p.mass ∧ 0 < p.radius := by
    intro p hp
    rcases List.mem_pair.mp hp with rfl | rfl <;> norm_num [p8a, p8b]
  have h2 : ∀ ev ∈ [Ev.spawn ⟨50, 50⟩ 10 ⟨0, 0⟩ 10 white, Ev.step,
      Ev.remove 0], sliderOk ev := by
    intro ev hev
    simp only [List.mem_cons, List.not_mem_nil, or_false] at hev
    rcases hev with rfl | rfl | rfl
    · norm_num [sliderOk]
    · exact trivial
    · exact trivial
  exact ⟨h1, h2, C7_amended_store_positivity sqDemo _ _ h1 h2⟩

/-- C8 is violated by the code: nothing wraps or clamps the focused index
after a removal.  With two bodies and the focus on index 1, the user removing
index 1 in draw_ui leaves the focus at 1 while the store shrinks to one body,
and the next frame's camera-follow read `planets[target]` indexes out of
bounds (modelled by `none`) even though the store is not empty — the claim
would require the read to stay in bounds. -/
theorem C8_removal_leaves_focus_out_of_bounds :
    (frameFocus ⟨[p8a, p8b], 1⟩).2 = some p8b.position ∧
    (drawUiRemove ⟨[p8a, p8b], 1⟩ 1).target = 1 ∧
    (drawUiRemove ⟨[p8a, p8b], 1⟩ 1).planets = [p8a] ∧
    (frameFocus (drawUiRemove ⟨[p8a, p8b], 1⟩ 1)).2 = none :=
  ⟨rfl, rfl, rfl, rfl⟩

/-- C9: removing index 1 from `[A,B,C]` yields `[A,C]`, and in general an
in-bounds removal deletes exactly the chosen element, leaves earlier indices
unchanged, and shifts all later indices down by one, preserving relative
order. -/
theorem C9_remove_shifts_down :
    (∀ A B C : Planet, storeRemove [A, B, C] 1 = [A, C]) ∧
    ∀ (l : List Planet) (i : ℕ), i < l.length →
      (storeRemove l i).length = l.length - 1 ∧
      ∀ j : ℕ, (storeRemove l i)[j]? = if j < i then l[j]? else l[j + 1]? :=
  ⟨fun _ _ _ => rfl, storeRemove_spec⟩

/-- Witness for C9 on a concrete three-body store. -/
theorem C9_remove_shifts_down_witness :
    (1 < ([p8a, p8b, p9c] : List Planet).length) ∧
    (storeRemove [p8a, p8b, p9c] 1).length =
      ([p8a, p8b, p9c] : List Planet).length - 1 ∧
    (storeRemove [p8a, p8b, p9c] 1)[0]? = some p8a ∧
    (storeRemove [p8a, p8b, p9c] 1)[1]? = some p9c := by
  have h := C9_remove_shifts_down.2 [p8a, p8b, p9c] 1 (by norm_num)
  refine ⟨by norm_num, h.1, ?_, ?_⟩
  · simpa using h.2 0
  · simpa using h.2 1

/-- C10: one physics step leaves every body's mass, radius and color exactly
as they were; only the velocity, the position (which moves by the new
velocity) and the history (which gains the new position) change. -/
theorem C10_step_preserves_static_fields (Gc e : ℚ) (sq : ℚ → ℚ)
    (ps : List Planet) (i : ℕ) (p : Planet) (h : ps[i]? = some p) :
    ∃ q : Planet, (update_planets Gc e sq ps)[i]? = some q ∧
      q.mass = p.mass ∧ q.radius = p.radius ∧ q.color = p.color ∧
      q.position = p.position + q.velocity ∧
      q.history = p.history ++ [q.position] := by
  obtain ⟨v, hv⟩ := step_get Gc e sq ps i p h
  exact ⟨_, hv, rfl, rfl, rfl, rfl, rfl⟩

/-- Witness for C10 on a one-body store. -/
theorem C10_step_preserves_static_fields_witness :
    (([p8a] : List Planet)[0]? = some p8a) ∧
    ∃ q : Planet, (update_planets (1 / 10) (3 / 10) sqDemo [p8a])[0]? = some q ∧
      q.mass = p8a.mass ∧ q.radius = p8a.radius ∧ q.color = p8a.color ∧
      q.position = p8a.position + q.velocity ∧
      q.history = p8a.history ++ [q.position] :=
  ⟨rfl, C10_step_preserves_static_fields (1 / 10) (3 / 10) sqDemo [p8a] 0 p8a rfl⟩

end Planets
